import Mathlib

/-!
Verification of the Lele's Boutique backend (src/main.py, src/schemas.py)
against its natural-language specification.

The embedding models the Python source shallowly:
- environment variables are an explicit record of `Option String` values
  (`none` = unset, `some ""` = set to the empty string);
- Python truthiness of optional strings is `pyTruthy`;
- Python list slicing `l[:k]` is `pyListSlice`, string slicing `s[:k]`
  is `pyStrSlice`, and `int(s)` is `pyIntParse`;
- the MongoDB documents returned by `get_documents` are association lists
  of field name to value, passed to each handler as an explicit argument;
- exceptions become explicit outcome constructors.
-/

/-- Truthiness of a Python value that is either `None` or a `str`:
`None` and `""` are falsy, every other string is truthy. -/
def pyTruthy : Option String → Bool
  | none => false
  | some s => s ≠ ""

/-- Python `a or b` on two `None`-or-`str` values: the first operand when it
is truthy, otherwise the second operand. -/
def pyOrOpt (a b : Option String) : Option String :=
  if pyTruthy a then a else b

/-- Python `a or d` where `a` is `None`-or-`str` and `d` is a `str`:
the string in `a` when truthy, otherwise `d`. -/
def pyOrStr (a : Option String) (d : String) : String :=
  if pyTruthy a then a.getD d else d

/-- Python list slice `l[:stop]` for an integer `stop`: a negative bound
counts from the end, and the result is clamped to the list. -/
def pyListSlice (l : List α) (stop : Int) : List α :=
  l.take ((if stop < 0 then (l.length : Int) + stop else stop)).toNat

/-- Python string slice `s[:stop]` for a nonnegative bound: the first
`stop` characters. -/
def pyStrSlice (s : String) (stop : Nat) : String :=
  String.mk (s.data.take stop)

/-- Helper for `pyIntParse`: after a leading digit, the remaining characters
of a Python integer literal are digits, with single underscores allowed
between digits. -/
def pyDigitsTail : List Char → Bool
  | [] => true
  | '_' :: c :: rest => c.isDigit && pyDigitsTail rest
  | c :: rest => c.isDigit && pyDigitsTail rest

/-- Helper for `pyIntParse`: a nonempty digit sequence starting and ending
with a digit, with single underscores allowed between digits. -/
def pyDigits : List Char → Bool
  | [] => false
  | '_' :: _ => false
  | c :: rest => c.isDigit && pyDigitsTail rest

/-- Numeric value of a digit-and-underscore sequence (underscores ignored). -/
def pyDigitsVal (l : List Char) : Nat :=
  (l.filter Char.isDigit).foldl (fun acc c => 10 * acc + (c.toNat - '0'.toNat)) 0

/-- ASCII whitespace stripped by Python `int()` before parsing. -/
def pySpace (c : Char) : Bool :=
  c = ' ' || c = '\t' || c = '\n' || c = '\r'

/-- Python `int(s)` on a string: optional surrounding whitespace, an optional
sign, then a digit sequence (single underscores allowed between digits).
`none` means `int` raises `ValueError`. Non-ASCII digits are not modelled. -/
def pyIntParse (s : String) : Option Int :=
  let core := ((s.data.dropWhile pySpace).reverse.dropWhile pySpace).reverse
  match core with
  | '+' :: rest => if pyDigits rest then some (pyDigitsVal rest) else none
  | '-' :: rest => if pyDigits rest then some (-(pyDigitsVal rest : Int)) else none
  | rest => if pyDigits rest then some (pyDigitsVal rest) else none

/-- A JSON-ish field value stored in a document: a string or a number. -/
inductive Val where
  | s (v : String)
  | n (v : Int)
deriving DecidableEq, Repr

/-- A MongoDB document as the Python driver returns it: an association list
of field name to value (a Python `dict`, so field names are unique). -/
def Doc := List (String × Val)
deriving DecidableEq, Repr

instance : Inhabited Doc := ⟨[]⟩

/-- Python `d.pop("_id", None)` on a document: the document without its
`"_id"` entry (on a `dict`, whose keys are unique, removing every entry
with that key is removing the one entry). -/
def popId (d : Doc) : Doc :=
  List.filter (fun kv => kv.1 ≠ "_id") d

/-- True when no field of the document is the internal identifier `"_id"`. -/
def docNoId (d : Doc) : Bool :=
  List.all d (fun kv => kv.1 ≠ "_id")

/-- The slice bound `limit or len(sample)` used by every content endpoint:
`limit` when it is a truthy integer (not `None` and not `0`), otherwise the
sample's length. -/
def pyOrLen (limit : Option Int) (n : Nat) : Int :=
  match limit with
  | none => (n : Int)
  | some k => if k = 0 then (n : Int) else k

/-- The hardcoded sample list of `list_services` (src/main.py lines 86-90). -/
def servicesSample : List Doc :=
  [ [("title", .s "Signature Makeup"), ("description", .s "Flawless, camera-ready finish."), ("price_from", .n 180), ("duration_min", .n 90)],
    [("title", .s "Haute Couture Styling"), ("description", .s "Personalized wardrobe curation."), ("price_from", .n 350), ("duration_min", .n 120)],
    [("title", .s "Brow Sculpt & Tint"), ("description", .s "Perfectly framed elegance."), ("price_from", .n 60), ("duration_min", .n 30)] ]

/-- The hardcoded sample list of `list_products` (src/main.py lines 101-105). -/
def productsSample : List Doc :=
  [ [("title", .s "Velvet Matte Lip Color"), ("description", .s "Petal-soft finish."), ("price", .n 48), ("image", .s "https://images.unsplash.com/photo-1585238342028-4bbc0a3d88a5?w=800&q=60"), ("tag", .s "New")],
    [("title", .s "Silk Glow Serum"), ("description", .s "Radiant complexion."), ("price", .n 82), ("image", .s "https://images.unsplash.com/photo-1615485737656-371b3f21a6f1?w=800&q=60")],
    [("title", .s "Noir Parfum"), ("description", .s "Smoked velvet, white florals."), ("price", .n 120), ("image", .s "https://images.unsplash.com/photo-1594035910387-fea47794261f?w=800&q=60"), ("tag", .s "Bestseller")] ]

/-- The hardcoded sample list of `list_testimonials` (src/main.py lines 116-119). -/
def testimonialsSample : List Doc :=
  [ [("name", .s "Amara L."), ("quote", .s "An experience, not a service. I felt exquisite."), ("avatar", .s "https://images.unsplash.com/photo-1554151228-14d9def656e4?w=200&q=60")],
    [("name", .s "Celeste R."), ("quote", .s "Every detail considered. Effortlessly elegant."), ("avatar", .s "https://images.unsplash.com/photo-1544005313-94ddf0286df2?w=200&q=60")] ]

/-- The hardcoded sample list of `list_posts` (src/main.py lines 170-173). -/
def postsSample : List Doc :=
  [ [("title", .s "Autumn Atelier"), ("excerpt", .s "Tonal layering in cashmere and silk."), ("image", .s "https://images.unsplash.com/photo-1509631179647-0177331693ae?w=1200&q=60")],
    [("title", .s "Gilded Evenings"), ("excerpt", .s "A study in light and shadow."), ("image", .s "https://images.unsplash.com/photo-1483985988355-763728e1932f?w=1200&q=60")] ]

/-- The shared body of the four content endpoints: if the query result is
empty (Python `if not docs`), return the sample truncated as
`sample[: limit or len(sample)]`; otherwise pop `"_id"` from every
document and return them. -/
def contentList (sample : List Doc) (docs : List Doc) (limit : Option Int) : List Doc :=
  if docs = [] then
    pyListSlice sample (pyOrLen limit sample.length)
  else
    docs.map popId

/-- `GET /services` handler (src/main.py lines 82-94). `docs` is what
`get_documents("service", {}, limit)` returned. -/
def list_services (docs : List Doc) (limit : Option Int) : List Doc :=
  contentList servicesSample docs limit

/-- `GET /products` handler (src/main.py lines 97-109). -/
def list_products (docs : List Doc) (limit : Option Int) : List Doc :=
  contentList productsSample docs limit

/-- `GET /testimonials` handler (src/main.py lines 112-123). -/
def list_testimonials (docs : List Doc) (limit : Option Int) : List Doc :=
  contentList testimonialsSample docs limit

/-- `GET /posts` handler (src/main.py lines 166-177). -/
def list_posts (docs : List Doc) (limit : Option Int) : List Doc :=
  contentList postsSample docs limit

lemma contentList_empty_pos (sample : List Doc) (N : Int) (h1 : 0 < N) :
    contentList sample [] (some N) = sample.take N.toNat := by
  simp only [contentList, if_pos rfl, pyOrLen, pyListSlice]
  rw [if_neg (by omega : ¬N = 0), if_neg (by omega : ¬N < 0)]
  simp

lemma contentList_empty_none (sample : List Doc) :
    contentList sample [] none = sample := by
  simp only [contentList, if_pos rfl, pyOrLen, pyListSlice]
  rw [if_neg (by omega : ¬(sample.length : Int) < 0)]
  simp

/-- Claim C1: for every supported content type, a GET whose backing query
returns an empty result yields exactly that type's hardcoded sample list,
and with a positive limit N below the sample size, exactly the first N
sample entries; in particular `GET /products?limit=1` on empty storage
returns exactly one product, the first sample, titled
"Velvet Matte Lip Color". -/
theorem c1_empty_collection_sample_fallback (N : Int) (h1 : 0 < N) :
    (list_services [] none = servicesSample ∧
     list_products [] none = productsSample ∧
     list_testimonials [] none = testimonialsSample ∧
     list_posts [] none = postsSample) ∧
    ((N < servicesSample.length → list_services [] (some N) = servicesSample.take N.toNat) ∧
     (N < productsSample.length → list_products [] (some N) = productsSample.take N.toNat) ∧
     (N < testimonialsSample.length → list_testimonials [] (some N) = testimonialsSample.take N.toNat) ∧
     (N < postsSample.length → list_posts [] (some N) = postsSample.take N.toNat)) ∧
    (list_products [] (some 1) = [productsSample.head!] ∧
     List.lookup "title" productsSample.head! = some (Val.s "Velvet Matte Lip Color")) := by
  refine ⟨⟨?_, ?_, ?_, ?_⟩, ⟨?_, ?_, ?_, ?_⟩, ?_, ?_⟩
  · exact contentList_empty_none _
  · exact contentList_empty_none _
  · exact contentList_empty_none _
  · exact contentList_empty_none _
  · intro _; exact contentList_empty_pos _ N h1
  · intro _; exact contentList_empty_pos _ N h1
  · intro _; exact contentList_empty_pos _ N h1
  · intro _; exact contentList_empty_pos _ N h1
  · decide
  · decide

/-- Witness for C1 at the concrete limit N = 2. -/
theorem c1_witness :
    (0 : Int) < 2 ∧
    ((list_services [] none = servicesSample ∧
      list_products [] none = productsSample ∧
      list_testimonials [] none = testimonialsSample ∧
      list_posts [] none = postsSample) ∧
     (((2 : Int) < servicesSample.length → list_services [] (some 2) = servicesSample.take (2 : Int).toNat) ∧
      ((2 : Int) < productsSample.length → list_products [] (some 2) = productsSample.take (2 : Int).toNat) ∧
      ((2 : Int) < testimonialsSample.length → list_testimonials [] (some 2) = testimonialsSample.take (2 : Int).toNat) ∧
      ((2 : Int) < postsSample.length → list_posts [] (some 2) = postsSample.take (2 : Int).toNat)) ∧
     (list_products [] (some 1) = [productsSample.head!] ∧
      List.lookup "title" productsSample.head! = some (Val.s "Velvet Matte Lip Color"))) :=
  ⟨by decide, c1_empty_collection_sample_fallback 2 (by decide)⟩

/-- Claim C3: for every supported content type, when the backing query
returns a non-empty list, every record in the response has had the internal
`"_id"` field removed. -/
theorem c3_id_stripped_from_returned_records (docs : List Doc) (limit : Option Int)
    (h : docs ≠ []) :
    List.all (list_services docs limit) docNoId = true ∧
    List.all (list_products docs limit) docNoId = true ∧
    List.all (list_testimonials docs limit) docNoId = true ∧
    List.all (list_posts docs limit) docNoId = true := by
  have key : ∀ sample : List Doc, List.all (contentList sample docs limit) docNoId = true := by
    intro sample
    simp only [contentList, if_neg h, List.all_eq_true]
    intro d hd
    rcases List.mem_map.mp hd with ⟨d0, _, rfl⟩
    simp only [popId, docNoId, List.all_eq_true]
    intro kv hkv
    simpa using (List.mem_filter.mp hkv).2
  exact ⟨key _, key _, key _, key _⟩

/-- Witness for C3 on a concrete non-empty query result carrying `"_id"`. -/
theorem c3_witness :
    ([[("_id", Val.s "651f"), ("title", Val.s "Gold Hoops"), ("price", Val.n 25)]] : List Doc) ≠ [] ∧
    (List.all (list_services [[("_id", Val.s "651f"), ("title", Val.s "Gold Hoops"), ("price", Val.n 25)]] (some 5)) docNoId = true ∧
     List.all (list_products [[("_id", Val.s "651f"), ("title", Val.s "Gold Hoops"), ("price", Val.n 25)]] (some 5)) docNoId = true ∧
     List.all (list_testimonials [[("_id", Val.s "651f"), ("title", Val.s "Gold Hoops"), ("price", Val.n 25)]] (some 5)) docNoId = true ∧
     List.all (list_posts [[("_id", Val.s "651f"), ("title", Val.s "Gold Hoops"), ("price", Val.n 25)]] (some 5)) docNoId = true) :=
  ⟨by decide, c3_id_stripped_from_returned_records _ (some 5) (by decide)⟩

/-- Claim C9: a request with limit 0 against an empty backing collection
returns the full sample list, because the slice bound is
`limit or len(sample)` and `0` is falsy in Python. -/
theorem c9_zero_limit_returns_full_sample :
    list_services [] (some 0) = servicesSample ∧
    list_products [] (some 0) = productsSample ∧
    list_testimonials [] (some 0) = testimonialsSample ∧
    list_posts [] (some 0) = postsSample := by
  refine ⟨?_, ?_, ?_, ?_⟩ <;> decide

/-- The environment variables the backend reads, as the process sees them:
`none` is unset, `some v` is set to `v`. -/
structure Env where
  SMTP_HOST : Option String := none
  SMTP_PORT : Option String := none
  SMTP_USER : Option String := none
  SMTP_PASS : Option String := none
  EMAIL_FROM : Option String := none
  EMAIL_TO : Option String := none
  DATABASE_URL : Option String := none
  DATABASE_NAME : Option String := none
  INSTAGRAM_USER : Option String := none
  GA_ID : Option String := none
deriving DecidableEq, Repr

/-- The plain-text message `send_email` builds (src/main.py lines 36-40):
`msg["From"] = sender`, `msg["To"] = to_email`, subject and body. -/
structure EmailMsg where
  subject : String
  sender : String
  toAddr : String
  body : String
deriving DecidableEq, Repr

/-- What `send_email` does before the SMTP transport runs:
`raisePortError` when `int(os.getenv("SMTP_PORT", "587"))` raises,
`skip` when the configuration guard returns `False`, and `attempt m`
when the message `m` is built and handed to the SMTP session (whose
transport/auth errors are the caller's problem). -/
inductive SendDecision where
  | raisePortError (err : String)
  | skip
  | attempt (m : EmailMsg)
deriving DecidableEq, Repr

/-- `send_email(subject, body, to_email)` (src/main.py lines 22-46), up to
the SMTP transport. The port is parsed first; then
`sender = os.getenv("EMAIL_FROM") or user`, and the guard
`if not (host and user and password and sender and to_email): return False`. -/
def send_email (env : Env) (subject body to_email : String) : SendDecision :=
  match pyIntParse (env.SMTP_PORT.getD "587") with
  | none =>
      .raisePortError ("invalid literal for int() with base 10: '" ++ env.SMTP_PORT.getD "587" ++ "'")
  | some _ =>
      let sender := pyOrOpt env.EMAIL_FROM env.SMTP_USER
      if pyTruthy env.SMTP_HOST && pyTruthy env.SMTP_USER && pyTruthy env.SMTP_PASS
          && pyTruthy sender && (to_email ≠ "") then
        .attempt { subject := subject, sender := sender.getD "", toAddr := to_email, body := body }
      else
        .skip

/-- Outcome of a full `send_email` call once the SMTP transport is taken
into account: an exception, `False`, or `True`. -/
inductive SendOutcome where
  | raised (err : String)
  | returnedFalse
  | returnedTrue (m : EmailMsg)
deriving DecidableEq, Repr

/-- `send_email` combined with what the SMTP session does when a send is
attempted: `transport = .error e` means `starttls`/`login`/`send_message`
raises `e`, which propagates to the caller. -/
def sendWithTransport (env : Env) (subject body to_email : String)
    (transport : Except String Unit) : SendOutcome :=
  match send_email env subject body to_email with
  | .raisePortError e => .raised e
  | .skip => .returnedFalse
  | .attempt m =>
      match transport with
      | .ok _ => .returnedTrue m
      | .error e => .raised e

/-- Counterexample to claim C4 as stated: a configuration with SMTP host
missing (so the claim promises `False` without raising) but `SMTP_PORT` set
to a non-numeric string makes `send_email` raise `ValueError` from
`int(os.getenv("SMTP_PORT", "587"))` before the guard runs. -/
theorem c4_counterexample :
    pyTruthy (Env.SMTP_HOST { SMTP_PORT := some "abc" }) = false ∧
    send_email { SMTP_PORT := some "abc" } "New Lead – Lele's Boutique" "body" "owner@example.com"
      = SendDecision.raisePortError "invalid literal for int() with base 10: 'abc'" ∧
    send_email { SMTP_PORT := some "abc" } "New Lead – Lele's Boutique" "body" "owner@example.com"
      ≠ SendDecision.skip := by
  refine ⟨rfl, by decide, by decide⟩

/-- Claim C4 as amended: provided `SMTP_PORT` is unset or parses as an
integer, if any one of SMTP host, SMTP user, SMTP password, or the
recipient is missing or empty, `send_email` returns `False` without
raising and without attempting a send. -/
theorem c4_missing_config_returns_false (env : Env) (subject body to_email : String)
    (hport : (pyIntParse (env.SMTP_PORT.getD "587")).isSome)
    (hmiss : pyTruthy env.SMTP_HOST = false ∨ pyTruthy env.SMTP_USER = false ∨
             pyTruthy env.SMTP_PASS = false ∨ to_email = "") :
    send_email env subject body to_email = SendDecision.skip := by
  rcases Option.isSome_iff_exists.mp hport with ⟨p, hp⟩
  have hcond : (pyTruthy env.SMTP_HOST && pyTruthy env.SMTP_USER && pyTruthy env.SMTP_PASS
      && pyTruthy (pyOrOpt env.EMAIL_FROM env.SMTP_USER) && decide (to_email ≠ "")) = false := by
    rcases hmiss with h | h | h | h
    · simp [h]
    · simp [h]
    · simp [h]
    · simp [h]
  unfold send_email
  rw [hp]
  simp only [hcond, Bool.false_eq_true, if_false]

/-- Witness for C4 (amended) at a concrete configuration with user and
password set but host missing. -/
theorem c4_witness :
    (pyIntParse ((Env.SMTP_PORT { SMTP_USER := some "u", SMTP_PASS := some "p" }).getD "587")).isSome = true ∧
    pyTruthy (Env.SMTP_HOST { SMTP_USER := some "u", SMTP_PASS := some "p" }) = false ∧
    send_email { SMTP_USER := some "u", SMTP_PASS := some "p" } "subj" "body" "owner@example.com"
      = SendDecision.skip :=
  ⟨by decide, by decide,
    c4_missing_config_returns_false _ "subj" "body" "owner@example.com" (by decide) (Or.inl (by decide))⟩

/-- A fully-configured SMTP environment except that `EMAIL_FROM` is unset
and `SMTP_PORT` is set to a non-numeric string. -/
def envBadPortConfigured : Env :=
  { SMTP_HOST := some "smtp.example.com", SMTP_PORT := some "abc", SMTP_USER := some "u@example.com", SMTP_PASS := some "p" }

/-- A fully-configured SMTP environment with `EMAIL_FROM` unset and
`SMTP_PORT` left at its default. -/
def envConfiguredNoFrom : Env :=
  { SMTP_HOST := some "smtp.example.com", SMTP_USER := some "u@example.com", SMTP_PASS := some "p" }

/-- Counterexample to claim C10 as stated: with host, user, password and
recipient all non-empty and `EMAIL_FROM` missing, the claim promises the
send is attempted with the user as sender; but `SMTP_PORT` set to a
non-numeric string makes `send_email` raise before any attempt. -/
theorem c10_counterexample :
    envBadPortConfigured.EMAIL_FROM = none ∧
    pyTruthy envBadPortConfigured.SMTP_HOST = true ∧
    pyTruthy envBadPortConfigured.SMTP_USER = true ∧
    pyTruthy envBadPortConfigured.SMTP_PASS = true ∧
    send_email envBadPortConfigured "subj" "body" "owner@example.com"
      = SendDecision.raisePortError "invalid literal for int() with base 10: 'abc'" := by
  exact ⟨rfl, by decide, by decide, by decide, by decide⟩

/-- Claim C10 as amended: the sender falls back to `SMTP_USER` when
`EMAIL_FROM` is unset or empty; provided `SMTP_PORT` is unset or parses as
an integer, when host, user, password and recipient are all non-empty, a
missing `EMAIL_FROM` never causes `send_email` to return `False` — the
send is attempted with the user as sender. -/
theorem c10_sender_falls_back_to_user (env : Env) (subject body to_email u : String)
    (hport : (pyIntParse (env.SMTP_PORT.getD "587")).isSome)
    (hhost : pyTruthy env.SMTP_HOST = true)
    (huser : env.SMTP_USER = some u) (hu : u ≠ "")
    (hpass : pyTruthy env.SMTP_PASS = true)
    (hto : to_email ≠ "")
    (hfrom : env.EMAIL_FROM = none ∨ env.EMAIL_FROM = some "") :
    send_email env subject body to_email
      = SendDecision.attempt { subject := subject, sender := u, toAddr := to_email, body := body } := by
  rcases Option.isSome_iff_exists.mp hport with ⟨p, hp⟩
  have hsender : pyOrOpt env.EMAIL_FROM env.SMTP_USER = some u := by
    rcases hfrom with h | h <;> simp [pyOrOpt, pyTruthy, h, huser]
  have hu' : pyTruthy (some u) = true := by simp [pyTruthy, hu]
  unfold send_email
  rw [hp]
  simp only [hsender, Option.getD_some]
  rw [hhost, hpass, huser, hu']
  simp [hto]

/-- Witness for C10 (amended) at a concrete fully-configured environment
with `EMAIL_FROM` unset. -/
theorem c10_witness :
    send_email envConfiguredNoFrom "subj" "body" "owner@example.com"
      = SendDecision.attempt { subject := "subj", sender := "u@example.com", toAddr := "owner@example.com", body := "body" } :=
  c10_sender_falls_back_to_user envConfiguredNoFrom "subj" "body" "owner@example.com" "u@example.com"
    (by decide) (by decide) rfl (by decide) (by decide) (by decide) (Or.inl rfl)

/-- Splitting a character list at every occurrence of a separator, like
Python `str.split(sep)`: always returns at least one (possibly empty) chunk. -/
def splitOnChar (sep : Char) : List Char → List (List Char)
  | [] => [[]]
  | c :: rest =>
      match splitOnChar sep rest with
      | [] => if c = sep then [[], []] else [[c]]
      | g :: gs => if c = sep then [] :: g :: gs else (c :: g) :: gs

/-- Modelled from the spec: the syntactic email validity enforced by the
schema layer's `EmailStr` field type, whose implementation (the external
`email-validator` package used by pydantic) is not part of this repository.
Per §3 and §4.1 the layer accepts a "valid email format" and rejects a
"malformed email": modelled as exactly one `@`, a nonempty local part, a
domain of at least two nonempty dot-separated labels, and no spaces. -/
def isValidEmail (s : String) : Bool :=
  match splitOnChar '@' s.data with
  | [lp, dom] =>
      let labels := splitOnChar '.' dom
      !lp.isEmpty && !lp.contains ' ' && !dom.contains ' '
        && decide (labels.length ≥ 2) && labels.all (fun l => !l.isEmpty)
  | _ => false

/-- The validated `Lead` record (src/schemas.py lines 11-16). `source`
defaults to `"website"`. JSON `null`s are not modelled: optional fields are
either present or absent. -/
structure Lead where
  name : String
  email : String
  phone : Option String
  message : Option String
  source : String
deriving DecidableEq, Repr

/-- The validated `Booking` record (src/schemas.py lines 18-24). -/
structure Booking where
  name : String
  email : String
  phone : Option String
  service : String
  date : String
  notes : Option String
deriving DecidableEq, Repr

/-- A raw `POST /lead` JSON body restricted to string-valued fields, each
present or absent. -/
structure RawLead where
  name : Option String := none
  email : Option String := none
  phone : Option String := none
  message : Option String := none
  source : Option String := none
deriving DecidableEq, Repr

/-- Modelled from the spec: pydantic validation of a raw body against the
`Lead` schema, run by the framework before the handler (§4.1, §4.4). A
missing required field or a malformed email yields a `ValidationError`. -/
def validateLead (raw : RawLead) : Except String Lead :=
  match raw.name with
  | none => .error "name: field required"
  | some nm =>
      match raw.email with
      | none => .error "email: field required"
      | some em =>
          if isValidEmail em then
            .ok { name := nm, email := em, phone := raw.phone, message := raw.message,
                  source := raw.source.getD "website" }
          else
            .error "email: value is not a valid email address"

/-- A record handed to the persistence adapter by the write endpoints. -/
inductive Record where
  | lead (l : Lead)
  | booking (b : Booking)
deriving DecidableEq, Repr

/-- Whether the backing document store is reachable; when it is not, every
insert fails with the driver's error message. -/
inductive StoreStatus where
  | available
  | unavailable (err : String)
deriving DecidableEq, Repr

/-- Modelled from the spec: the state of the document store behind the
`database` module, which is not under src/. Per §4.2 it holds records by
collection name and assigns fresh identifiers. -/
structure Store where
  status : StoreStatus
  docs : List (String × Record) := []
  nextId : Nat := 0
deriving DecidableEq, Repr

/-- Modelled from the spec: the storage-assigned unique identifier for the
`nextId`-th insert (§3: "storage-assigned unique identifier"). -/
def genId (n : Nat) : String :=
  "doc-" ++ Nat.repr n

/-- Modelled from the spec: `create_document(collection_name, record)` of the
`database` module, which is not under src/. Per §4.2: inserts the record and
returns a newly assigned unique identifier, or fails with the storage
error when no backing store is reachable. -/
def create_document (coll : String) (r : Record) (st : Store) :
    Except String (String × Store) :=
  match st.status with
  | .unavailable e => .error e
  | .available =>
      .ok (genId st.nextId,
           { st with docs := st.docs ++ [(coll, r)], nextId := st.nextId + 1 })

/-- An HTTP response of the write endpoints: `success id` is the 200 body
`{"status": "ok", "id": id}`; `failure s d` is an `HTTPException` with
status code `s` and detail `d`. -/
inductive Resp where
  | success (id : String)
  | failure (status : Nat) (detail : String)
deriving DecidableEq, Repr

/-- HTTP status code of a write-endpoint response. -/
def statusOf : Resp → Nat
  | .success _ => 200
  | .failure s _ => s

/-- The plaintext notification body built by `create_lead`
(src/main.py lines 132-138). -/
def leadEmailBody (payload : Lead) : String :=
  "New website lead for Lele's Boutique\n\n"
    ++ "Name: " ++ payload.name ++ "\n"
    ++ "Email: " ++ payload.email ++ "\n"
    ++ "Phone: " ++ pyOrStr payload.phone "-" ++ "\n\n"
    ++ "Message:\n" ++ pyOrStr payload.message "-" ++ "\n"

/-- The plaintext notification body built by `create_booking`
(src/main.py lines 150-158). -/
def bookingEmailBody (payload : Booking) : String :=
  "New booking request for Lele's Boutique\n\n"
    ++ "Name: " ++ payload.name ++ "\n"
    ++ "Email: " ++ payload.email ++ "\n"
    ++ "Phone: " ++ pyOrStr payload.phone "-" ++ "\n"
    ++ "Service: " ++ payload.service ++ "\n"
    ++ "Date: " ++ payload.date ++ "\n\n"
    ++ "Notes:\n" ++ pyOrStr payload.notes "-" ++ "\n"

/-- The `POST /lead` handler body (src/main.py lines 127-142), after
validation: persist, then notify `os.getenv("EMAIL_TO") or ""`; any
exception raised inside the `try` becomes `HTTPException(500, str(e))`.
`transport` is what the SMTP session does if a send is attempted. -/
def create_lead (payload : Lead) (env : Env) (transport : Except String Unit)
    (st : Store) : Resp × Store :=
  match create_document "lead" (Record.lead payload) st with
  | .error e => (.failure 500 e, st)
  | .ok (lead_id, st') =>
      match sendWithTransport env "New Lead – Lele's Boutique" (leadEmailBody payload)
          (pyOrStr env.EMAIL_TO "") transport with
      | .raised e => (.failure 500 e, st')
      | .returnedFalse => (.success lead_id, st')
      | .returnedTrue _ => (.success lead_id, st')

/-- The `POST /book` handler body (src/main.py lines 145-162), after
validation: the same pattern as `create_lead` with the booking message. -/
def create_booking (payload : Booking) (env : Env) (transport : Except String Unit)
    (st : Store) : Resp × Store :=
  match create_document "booking" (Record.booking payload) st with
  | .error e => (.failure 500 e, st)
  | .ok (booking_id, st') =>
      match sendWithTransport env "New Booking – Lele's Boutique" (bookingEmailBody payload)
          (pyOrStr env.EMAIL_TO "") transport with
      | .raised e => (.failure 500 e, st')
      | .returnedFalse => (.success booking_id, st')
      | .returnedTrue _ => (.success booking_id, st')

/-- The full `POST /lead` request pipeline: the framework validates the raw
body against the `Lead` schema and answers 422 before the handler runs when
validation fails (§4.4); otherwise the handler runs. -/
def postLead (raw : RawLead) (env : Env) (transport : Except String Unit)
    (st : Store) : Resp × Store :=
  match validateLead raw with
  | .error msg => (.failure 422 msg, st)
  | .ok payload => create_lead payload env transport st

lemma validateLead_error_of_invalid (raw : RawLead) (em : String)
    (he : raw.email = some em) (hv : isValidEmail em = false) :
    ∃ msg, validateLead raw = .error msg := by
  unfold validateLead
  cases hn : raw.name with
  | none => exact ⟨_, rfl⟩
  | some nm =>
      rw [he]
      simp only [hv, Bool.false_eq_true, if_false]
      exact ⟨_, rfl⟩

/-- Claim C2: for every `POST /lead` body whose email field is not a
syntactically valid email address, the request is rejected with 422 by
schema validation before the handler runs, and the store is unchanged. -/
theorem c2_invalid_email_rejected_422 (raw : RawLead) (env : Env)
    (transport : Except String Unit) (st : Store) (em : String)
    (he : raw.email = some em) (hv : isValidEmail em = false) :
    statusOf (postLead raw env transport st).1 = 422 ∧
    (postLead raw env transport st).2 = st := by
  rcases validateLead_error_of_invalid raw em he hv with ⟨msg, hmsg⟩
  unfold postLead
  rw [hmsg]
  exact ⟨rfl, rfl⟩

/-- Witness for C2 at the concrete invalid body
`{"name": "Amara", "email": "not-an-email"}`. -/
theorem c2_witness :
    RawLead.email { name := some "Amara", email := some "not-an-email" } = some "not-an-email" ∧
    isValidEmail "not-an-email" = false ∧
    statusOf (postLead { name := some "Amara", email := some "not-an-email" } {} (Except.ok ()) { status := .available }).1 = 422 ∧
    (postLead { name := some "Amara", email := some "not-an-email" } {} (Except.ok ()) { status := .available }).2 = { status := StoreStatus.available } :=
  ⟨rfl, by decide,
    (c2_invalid_email_rejected_422 _ {} (Except.ok ()) _ "not-an-email" rfl (by decide)).1,
    (c2_invalid_email_rejected_422 _ {} (Except.ok ()) _ "not-an-email" rfl (by decide)).2⟩

/-- The validated record of `POST /lead {"name": "Amara", "email": "a@x.com"}`. -/
def leadAmara : Lead :=
  { name := "Amara", email := "a@x.com", phone := none, message := none, source := "website" }

/-- The raw body `{"name": "Amara", "email": "a@x.com"}`. -/
def rawAmara : RawLead :=
  { name := some "Amara", email := some "a@x.com" }

/-- An empty, reachable store. -/
def emptyStore : Store :=
  { status := .available }

/-- A driver error message of 121 characters. -/
def e121 : String :=
  String.mk (List.replicate 121 'x')

/-- Counterexample to claim C5 as stated: when persistence fails with a
121-character error message, the handler answers 500 with the full message
as detail — `detail=str(e)` on src/main.py line 142 applies no truncation,
so the detail is not a truncated form of the message. -/
theorem c5_counterexample :
    e121.length = 121 ∧
    (create_lead leadAmara {} (Except.ok ()) { status := .unavailable e121 }).1
      = Resp.failure 500 e121 ∧
    pyStrSlice e121 120 ≠ e121 := by
  refine ⟨by decide, by decide, by decide⟩

/-- Claim C5 as amended: for every `POST /lead` or `POST /book` request
where persistence (or any step inside the handler) raises, the endpoint
responds 500 with the full, untruncated error message as detail. -/
theorem c5_handler_error_500_full_detail (lp : Lead) (bp : Booking) (env : Env)
    (transport : Except String Unit) (st : Store) (e m : String) :
    (st.status = StoreStatus.unavailable e →
      (create_lead lp env transport st).1 = Resp.failure 500 e ∧
      (create_booking bp env transport st).1 = Resp.failure 500 e) ∧
    (st.status = StoreStatus.available →
      (∀ s b, sendWithTransport env s b (pyOrStr env.EMAIL_TO "") transport
        = SendOutcome.raised m) →
      (create_lead lp env transport st).1 = Resp.failure 500 m ∧
      (create_booking bp env transport st).1 = Resp.failure 500 m) := by
  constructor
  · intro h
    unfold create_lead create_booking create_document
    rw [h]
    exact ⟨rfl, rfl⟩
  · intro h hsend
    unfold create_lead create_booking create_document
    rw [h]
    simp only [hsend]
    exact ⟨trivial, trivial⟩

/-- A valid booking payload used in concrete runs. -/
def bookingSample : Booking :=
  { name := "Amara", email := "a@x.com", phone := none, service := "Signature Makeup",
    date := "2026-01-15", notes := none }

/-- Witness for C5 (amended): a persistence failure `"boom"` and an SMTP
port-parse failure each surface as a 500 whose detail is the full message. -/
theorem c5_witness :
    (create_lead leadAmara {} (Except.ok ()) { status := .unavailable "boom" }).1
      = Resp.failure 500 "boom" ∧
    (create_booking bookingSample {} (Except.ok ()) { status := .unavailable "boom" }).1
      = Resp.failure 500 "boom" ∧
    (create_lead leadAmara envBadPortConfigured (Except.ok ()) emptyStore).1
      = Resp.failure 500 "invalid literal for int() with base 10: 'abc'" ∧
    (create_booking bookingSample envBadPortConfigured (Except.ok ()) emptyStore).1
      = Resp.failure 500 "invalid literal for int() with base 10: 'abc'" :=
  have h1 := c5_handler_error_500_full_detail leadAmara bookingSample {} (Except.ok ())
    { status := .unavailable "boom" } "boom" ""
  have h2 := c5_handler_error_500_full_detail leadAmara bookingSample envBadPortConfigured
    (Except.ok ()) emptyStore "" "invalid literal for int() with base 10: 'abc'"
  ⟨(h1.1 rfl).1, (h1.1 rfl).2, (h2.2 rfl (fun _ _ => rfl)).1, (h2.2 rfl (fun _ _ => rfl)).2⟩

/-- Claim C6: `POST /lead {"name": "Amara", "email": "a@x.com"}` against an
empty reachable store and an unconfigured SMTP environment succeeds with
200 and a non-empty id, and the persisted record has `source` defaulted to
`"website"`. -/
theorem c6_lead_amara_scenario :
    statusOf (postLead rawAmara {} (Except.ok ()) emptyStore).1 = 200 ∧
    (postLead rawAmara {} (Except.ok ()) emptyStore).1 = Resp.success "doc-0" ∧
    "doc-0" ≠ "" ∧
    (postLead rawAmara {} (Except.ok ()) emptyStore).2.docs
      = [("lead", Record.lead leadAmara)] ∧
    leadAmara.source = "website" := by
  exact ⟨by decide, by decide, by decide, by decide, rfl⟩

/-- The diagnostic object built by `GET /test` (src/main.py lines 56-78). -/
structure Diag where
  backend : String
  database : String
  database_url : String
  database_name : String
  connection_status : String
  collections : List String
deriving DecidableEq, Repr

/-- The module-level `db` handle of the `database` module (not under src/):
either it is `None`, or it is live and `db.list_collection_names()` either
returns a list of names or raises with some message. -/
inductive DbState where
  | noDb
  | conn (listRes : Except String (List String))

/-- The `GET /test` handler (src/main.py lines 54-78): builds the base
diagnostic, then fills the database fields; a failure of
`db.list_collection_names()` is caught and reported as
`"⚠️ Connected but Error: " + str(e)[:120]` inside the object. -/
def test_database (env : Env) (dbSt : DbState) : Diag :=
  let base : Diag :=
    { backend := "✅ Running",
      database := "❌ Not Available",
      database_url := if pyTruthy env.DATABASE_URL then "✅ Set" else "❌ Not Set",
      database_name := if pyTruthy env.DATABASE_NAME then "✅ Set" else "❌ Not Set",
      connection_status := "Not Connected",
      collections := [] }
  match dbSt with
  | .noDb => { base with database := "⚠️ Available but not initialized" }
  | .conn (.ok cols) =>
      { base with database := "✅ Connected & Working",
                  connection_status := "Connected",
                  collections := cols.take 10 }
  | .conn (.error e) =>
      { base with database := "⚠️ Connected but Error: " ++ pyStrSlice e 120,
                  connection_status := "Connected" }

/-- Claim C7: every error raised while `GET /test` lists collections is
caught inside the handler — `test_database` always produces a diagnostic
object, never an HTTP error — and the error is reported inside the object
as a string truncated to at most 120 characters. -/
theorem c7_test_errors_caught_truncated (env : Env) (e : String) :
    (test_database env (DbState.conn (Except.error e))).database
      = "⚠️ Connected but Error: " ++ pyStrSlice e 120 ∧
    (pyStrSlice e 120).length ≤ 120 := by
  constructor
  · rfl
  · calc (pyStrSlice e 120).length = (e.data.take 120).length := rfl
      _ = min 120 e.data.length := List.length_take 120 e.data
      _ ≤ 120 := min_le_left _ _

/-- The `GET /config` response (src/main.py lines 181-186). -/
structure ConfigOut where
  instagram_user : String
  ga_id : String
deriving DecidableEq, Repr

/-- The `GET /config` handler: `os.getenv("INSTAGRAM_USER", "lelesboutique")`
and `os.getenv("GA_ID", "")` — the defaults apply only when the variable is
unset. -/
def config (env : Env) : ConfigOut :=
  { instagram_user := env.INSTAGRAM_USER.getD "lelesboutique",
    ga_id := env.GA_ID.getD "" }

/-- Claim C8: with neither `INSTAGRAM_USER` nor `GA_ID` set, `GET /config`
returns `instagram_user = "lelesboutique"` and `ga_id = ""`. -/
theorem c8_config_defaults (env : Env)
    (h1 : env.INSTAGRAM_USER = none) (h2 : env.GA_ID = none) :
    config env = { instagram_user := "lelesboutique", ga_id := "" } := by
  simp [config, h1, h2]

/-- Witness for C8 at the fully unset environment. -/
theorem c8_witness :
    Env.INSTAGRAM_USER {} = none ∧ Env.GA_ID {} = none ∧
    config {} = { instagram_user := "lelesboutique", ga_id := "" } :=
  ⟨rfl, rfl, c8_config_defaults {} rfl rfl⟩
